import Mathlib

/-!
Verification of the extraction core of the ReportingRAG repository,
file src/data_loader.py: currency normalization (parse_iso_currency),
grid loading (load_financial_data.process_dataframe), section anchoring
and the two entry extractors (parse_erfolgsrechnung, parse_bilanz).
The Python code is embedded shallowly: a dataframe becomes a list of
rows of tagged cells (absent / text / number), Python floats become
exact rationals (on every value appearing in the theorems below the
binary-double computation agrees with the rational one), and the two
uncatchable exceptions of the extractors (IndexError from positional
indexing, AttributeError from calling strip on a non-string) are
modelled with Except.
-/

namespace ReportingRAG

/-- The apostrophe character, written via its code point. -/
def apoChar : Char := Char.ofNat 39

/-- Word characters for the regex word boundary.  Python 3 re is
Unicode-aware; we model ASCII alphanumerics and the underscore exactly
and approximate all non-ASCII code points as word characters (correct
for accented letters, which are the only non-ASCII characters the
repository's data uses). -/
def pyWordChar (c : Char) : Bool := c.isAlphanum || c == '_' || 127 < c.toNat

/-- Characters matched by the regex class backslash-s (ASCII part). -/
def regexSpace (c : Char) : Bool :=
  c == ' ' || c == '\t' || c == '\n' || c == '\x0d' || c == '\x0b' || c == '\x0c'

/-- Whitespace stripped by Python str.strip() and by float() (ASCII part). -/
def pySpaceChar (c : Char) : Bool :=
  c == ' ' || c == '\t' || c == '\n' || c == '\x0d' || c == '\x0b' || c == '\x0c'

/-- The character class of the number token in parse_iso_currency:
digits, apostrophe, comma and dot. -/
def numTokChar (c : Char) : Bool :=
  c.isDigit || c == apoChar || c == ',' || c == '.'

/-- Python str.strip() on a character list: whitespace removed from both ends. -/
def pyStrip (cs : List Char) : List Char :=
  ((cs.dropWhile pySpaceChar).reverse.dropWhile pySpaceChar).reverse

/-- Python str.strip() on a String. -/
def pyStripS (s : String) : String := String.mk (pyStrip s.data)

/-- Python str.isdigit(): nonempty and all digits (ASCII model). -/
def pyIsDigitL (cs : List Char) : Bool := !cs.isEmpty && cs.all Char.isDigit

/-- An exact rational in lowest terms with positive denominator,
modelling the finite Python float values that appear in the theorems
below (on all of them the binary-double computation agrees with the
exact one).  A dedicated structure keeps every arithmetic operation
kernel-reducible. -/
structure PyNum where
  n : Int
  d : Nat

deriving instance DecidableEq for PyNum

/-- Build a rational in lowest terms from a numerator and a positive
denominator. -/
def mkPyNum (a : Int) (b : Nat) : PyNum :=
  let g := Nat.gcd a.natAbs b
  ⟨a / (g : Int), b / g⟩

/-- Embed an integer. -/
def intNum (i : Int) : PyNum := ⟨i, 1⟩

/-- Embed a natural number. -/
def natNum (m : Nat) : PyNum := ⟨(m : Int), 1⟩

/-- Addition. -/
def addNum (a b : PyNum) : PyNum :=
  mkPyNum (a.n * (b.d : Int) + b.n * (a.d : Int)) (a.d * b.d)

/-- Multiplication. -/
def mulNum (a b : PyNum) : PyNum := mkPyNum (a.n * b.n) (a.d * b.d)

/-- Negation (keeps lowest terms). -/
def negNum (a : PyNum) : PyNum := ⟨-a.n, a.d⟩

/-- Subtraction. -/
def subNum (a b : PyNum) : PyNum := addNum a (negNum b)

/-- Division (never applied to zero below). -/
def divNum (a b : PyNum) : PyNum :=
  if b.n = 0 then ⟨0, 1⟩
  else if b.n < 0 then mkPyNum (-(a.n * (b.d : Int))) (a.d * b.n.natAbs)
  else mkPyNum (a.n * (b.d : Int)) (a.d * b.n.natAbs)

/-- The power of ten used for decimal scaling. -/
def pow10 (k : Nat) : PyNum := ⟨((10 ^ k : Nat) : Int), 1⟩

/-- Comparison (denominators are positive). -/
def leNum (a b : PyNum) : Bool := decide (a.n * (b.d : Int) ≤ b.n * (a.d : Int))

/-- Strict comparison. -/
def ltNum (a b : PyNum) : Bool := decide (a.n * (b.d : Int) < b.n * (a.d : Int))

/-- The floor, as an integer. -/
def floorNum (a : PyNum) : Int := Int.fdiv a.n (a.d : Int)

/-- A Python float value: a finite value (exact rational model), nan, or
a signed infinity. -/
inductive PyFloat where
  | num : PyNum → PyFloat
  | nan : PyFloat
  | inf : Bool → PyFloat

deriving instance DecidableEq for PyFloat

/-- A spreadsheet cell: absent (NaN), text, or a number. -/
inductive Cell where
  | empty : Cell
  | text : String → Cell
  | number : PyNum → Cell

deriving instance DecidableEq for Cell

/-- The exceptions of the extraction core that no handler catches. -/
inductive PyErr where
  | indexError : PyErr
  | attributeError : PyErr

deriving instance DecidableEq for PyErr

/-- Digit-group scanner for Python float() literals, PEP 515 underscores
included: a group is digit (underscore? digit)*.  Returns the value, the
number of digits consumed and the rest; the flag records whether the
previously consumed character was an underscore (which must be followed
by a digit, otherwise the whole literal is invalid). -/
def digitsGo : List Char → Bool → Nat → Nat → Option (Nat × Nat × List Char)
  | [], afterUS, v, n => if afterUS then none else some (v, n, [])
  | c :: rest, afterUS, v, n =>
    if c.isDigit then digitsGo rest false (10 * v + (c.toNat - 48)) (n + 1)
    else if c = '_' then
      if afterUS then none
      else if n = 0 then some (v, n, c :: rest)
      else digitsGo rest true v n
    else if afterUS then none else some (v, n, c :: rest)

/-- The numeric part of a Python float() literal after the optional
sign: digits [ dot digits ] with at least one digit overall, then an
optional exponent; the whole input must be consumed. -/
def parseDec (t : List Char) : Option PyNum :=
  match digitsGo t false 0 0 with
  | none => none
  | some (iv, ic, r1) =>
    let fr : Option (Nat × Nat × List Char) :=
      match r1 with
      | c :: r => if c = '.' then digitsGo r false 0 0 else some (0, 0, r1)
      | [] => some (0, 0, [])
    match fr with
    | none => none
    | some (fv, fc, r2) =>
      if ic + fc = 0 then none
      else
        let mant : PyNum := addNum (natNum iv) (divNum (natNum fv) (pow10 fc))
        match r2 with
        | [] => some mant
        | e :: r3 =>
          if e = 'e' ∨ e = 'E' then
            let sgn : Bool × List Char :=
              match r3 with
              | c :: rr => if c = '-' then (true, rr)
                           else if c = '+' then (false, rr) else (false, r3)
              | [] => (false, [])
            match digitsGo sgn.2 false 0 0 with
            | none => none
            | some (ev, ec, r5) =>
              if ec = 0 ∨ r5 ≠ [] then none
              else some (if sgn.1 then divNum mant (pow10 ev) else mulNum mant (pow10 ev))
          else none

/-- Case-insensitive comparison against a keyword (for inf and nan). -/
def lowEq (cs : List Char) (kw : String) : Bool :=
  cs.map Char.toLower == kw.data

/-- Python float(str): strip whitespace, optional sign, then either an
inf/nan keyword or a decimal literal.  None models ValueError. -/
def pyFloatOfString (cs : List Char) : Option PyFloat :=
  let t := (cs.dropWhile pySpaceChar).reverse.dropWhile pySpaceChar |>.reverse
  match t with
  | [] => none
  | c0 :: rest0 =>
    let sgn : Bool × List Char :=
      if c0 = '-' then (true, rest0)
      else if c0 = '+' then (false, rest0) else (false, t)
    if lowEq sgn.2 "inf" || lowEq sgn.2 "infinity" then some (PyFloat.inf (!sgn.1))
    else if lowEq sgn.2 "nan" then some PyFloat.nan
    else
      match parseDec sgn.2 with
      | some q => some (PyFloat.num (if sgn.1 then negNum q else q))
      | none => none

/-- Python float(cell): NaN coerces to nan (no exception), numbers pass
through, text is parsed; None models the ValueError that the extractors
catch. -/
def pyFloatCell : Cell → Option PyFloat
  | Cell.empty => some PyFloat.nan
  | Cell.number q => some (PyFloat.num q)
  | Cell.text s => pyFloatOfString s.data

/-- float() restricted to the cleaned currency token.  The regex number
class contains no letters and no exponent marker, so inf/nan spellings
and exponents cannot occur there; only a finite decimal can result. -/
def floatFinite? (cs : List Char) : Option PyNum :=
  match pyFloatOfString cs with
  | some (PyFloat.num q) => some q
  | _ => none

/-- Is the character at index i a word character (false past the end)? -/
def isWordAt (cs : List Char) (i : Nat) : Bool :=
  match cs.get? i with
  | some c => pyWordChar c
  | none => false

/-- Regex word boundary at position p. -/
def boundAt (cs : List Char) (p : Nat) : Bool :=
  (match p with
   | 0 => false
   | q + 1 => isWordAt cs q) != isWordAt cs p

/-- Is the character at index i an ASCII uppercase letter? -/
def upperAt (cs : List Char) (i : Nat) : Bool :=
  match cs.get? i with
  | some c => 65 ≤ c.toNat && c.toNat ≤ 90
  | none => false

/-- Match the group of the number token right after the greedy
whitespace skip: an optional hyphen, then (only when the hyphen is
present) whitespace, then a maximal nonempty run of the number class.
The input starts at a non-space position, so without a hyphen the inner
whitespace star is empty. -/
def grabNumTok (t : List Char) : Option (List Char) :=
  match t with
  | [] => none
  | c :: rest =>
    if c = '-' then
      let sp := rest.takeWhile regexSpace
      let r2 := rest.dropWhile regexSpace
      let run := r2.takeWhile numTokChar
      if run.isEmpty then none else some (c :: (sp ++ run))
    else
      let run := t.takeWhile numTokChar
      if run.isEmpty then none else some run

/-- Try the first pattern of parse_iso_currency at start position i:
word boundary, three uppercase letters, word boundary, whitespace, then
the number group. -/
def tryPat1 (cs : List Char) (i : Nat) : Option (List Char) :=
  if boundAt cs i && upperAt cs i && upperAt cs (i + 1) && upperAt cs (i + 2)
      && boundAt cs (i + 3) then
    grabNumTok ((cs.drop (i + 3)).dropWhile regexSpace)
  else none

/-- Leftmost match of the code-before-number pattern; the returned list
is the number group.  re.search tries every start position from the
left; within a position the greedy match is unique for this pattern. -/
def findPat1 (cs : List Char) : Option (List Char) :=
  (List.range (cs.length + 1)).findSome? (tryPat1 cs)

/-- Match the leading number group of the second pattern at the start of
t: optional hyphen, greedy whitespace, maximal nonempty run of the
number class.  The group includes the leading whitespace (it sits inside
the capture). -/
def pat2Group (t : List Char) : Option (List Char) :=
  match t with
  | [] => none
  | c :: rest =>
    if c = '-' then
      let sp := rest.takeWhile regexSpace
      let r2 := rest.dropWhile regexSpace
      let run := r2.takeWhile numTokChar
      if run.isEmpty then none else some (c :: (sp ++ run))
    else
      let sp := t.takeWhile regexSpace
      let r2 := t.dropWhile regexSpace
      let run := r2.takeWhile numTokChar
      if run.isEmpty then none else some (sp ++ run)

/-- Try the second pattern of parse_iso_currency at start position i:
the number group, greedy whitespace, word boundary, three uppercase
letters, word boundary.  No backtracking of the number run can succeed,
because the character after a shortened run is a number-class character,
which is neither whitespace nor an uppercase letter. -/
def tryPat2 (cs : List Char) (i : Nat) : Option (List Char) :=
  match pat2Group (cs.drop i) with
  | none => none
  | some tok =>
    let k := i + tok.length + ((cs.drop (i + tok.length)).takeWhile regexSpace).length
    if boundAt cs k && upperAt cs k && upperAt cs (k + 1) && upperAt cs (k + 2)
        && boundAt cs (k + 3) then some tok
    else none

/-- Leftmost match of the number-before-code pattern. -/
def findPat2 (cs : List Char) : Option (List Char) :=
  (List.range (cs.length + 1)).findSome? (tryPat2 cs)

/-- First cleaning pass of parse_iso_currency: remove apostrophes,
commas and spaces (the three replace calls delete characters, so a
single filter is equivalent). -/
def clean1 (cs : List Char) : List Char :=
  cs.filter (fun c => !(c == apoChar || c == ',' || c == ' '))

/-- Second cleaning pass: remove apostrophes, remove dots, then turn
commas into dots, then remove spaces, in the order of the source. -/
def clean2 (cs : List Char) : List Char :=
  (((cs.filter (fun c => !(c == apoChar || c == '.'))).map
      (fun c => if c = ',' then '.' else c)).filter (fun c => !(c == ' ')))

/-- Python round(x, 2): round half to even at two decimal places,
computed on the exact rational model. -/
def round2 (q : PyNum) : PyNum :=
  let x := mulNum q (natNum 100)
  let n : Int := floorNum x
  let r : PyNum := subNum x (intNum n)
  let m : Int :=
    if ltNum r (mkPyNum 1 2) then n
    else if ltNum (mkPyNum 1 2) r then n + 1
    else if n % 2 = 0 then n else n + 1
  divNum (intNum m) (natNum 100)

/-- The two parse attempts of parse_iso_currency on the extracted number
token: strip, then the US/Swiss cleaning, on failure the European
cleaning, on double failure the original value. -/
def attempt12 (tok : List Char) (orig : String) : Cell :=
  let t := pyStrip tok
  match floatFinite? (clean1 t) with
  | some q => Cell.number (round2 q)
  | none =>
    match floatFinite? (clean2 t) with
    | some q => Cell.number (round2 q)
    | none => Cell.text orig

/-- parse_iso_currency: non-strings pass through unchanged; for text,
search for an ISO-code-then-number match, then for a
number-then-ISO-code match; with no match return the text unchanged,
otherwise parse the extracted token with the two-pass strategy. -/
def parseIsoCurrency : Cell → Cell
  | Cell.text s =>
    (match findPat1 s.data with
     | some tok => attempt12 tok s
     | none =>
       match findPat2 s.data with
       | some tok => attempt12 tok s
       | none => Cell.text s)
  | c => c

/-- A loaded sheet: rows of cells, addressed (row, column), row-major. -/
abbrev Grid := List (List Cell)

/-- The cell at (i, j), with the absent cell as default (the scans only
use in-range indices; pandas frames are rectangular). -/
def cellAtD (g : Grid) (i j : Nat) : Cell := (g.getD i []).getD j Cell.empty

/-- len(df.columns): the width of the (rectangular) grid. -/
def numCols (g : Grid) : Nat :=
  match g with
  | [] => 0
  | r :: _ => r.length

/-- Does pat start the list hay? -/
def leadsWith : List Char → List Char → Bool
  | [], _ => true
  | _ :: _, [] => false
  | p :: ps, h :: hs => p == h && leadsWith ps hs

/-- Python substring containment (the in operator on strings). -/
def subOccurs (pat : List Char) (hay : List Char) : Bool :=
  match hay with
  | [] => leadsWith pat []
  | _ :: hs => leadsWith pat hay || subOccurs pat hs

/-- Does the cell hold text containing the marker as a substring? -/
def isTextContaining (m : String) (c : Cell) : Bool :=
  match c with
  | Cell.text s => subOccurs m.data s.data
  | _ => false

/-- The row-major enumeration of the grid traversed by the anchor scan:
for row_idx in range(len(df)), for col_idx in range(len(df.columns)). -/
def cellsRM (g : Grid) : List (Nat × Nat × Cell) :=
  (List.range g.length).flatMap
    (fun i => (List.range (numCols g)).map (fun j => (i, j, cellAtD g i j)))

/-- One step of the anchor scan: a text cell containing the first
marker overwrites the first anchor; otherwise (elif) one containing the
second marker overwrites the second anchor. -/
def locStep (m1 m2 : String) (a : Option (Nat × Nat) × Option (Nat × Nat))
    (e : Nat × Nat × Cell) : Option (Nat × Nat) × Option (Nat × Nat) :=
  if isTextContaining m1 e.2.2 then (some (e.1, e.2.1), a.2)
  else if isTextContaining m2 e.2.2 then (a.1, some (e.1, e.2.1))
  else a

/-- The full-grid anchor scan of parse_erfolgsrechnung / parse_bilanz,
with none modelling the -1 sentinel. -/
def locatePair (g : Grid) (m1 m2 : String) :
    Option (Nat × Nat) × Option (Nat × Nat) :=
  (cellsRM g).foldl (locStep m1 m2) (none, none)

/-- The last cell of the row-major enumeration satisfying a predicate
(the claim-side description of the overwrite-on-each-match scan). -/
def lastMatchRM (g : Grid) (p : Cell → Bool) : Option (Nat × Nat) :=
  match (cellsRM g).reverse.find? (fun e => p e.2.2) with
  | some e => some (e.1, e.2.1)
  | none => none

/-- An output mapping: a Python dict as an ordered association list
with unique keys; insertion of a present key updates in place. -/
abbrev Dict := List (String × PyFloat)

/-- data_dict[key] = value. -/
def dinsert : Dict → String → PyFloat → Dict
  | [], k, v => [(k, v)]
  | (k0, v0) :: rest, k, v =>
    if k0 = k then (k0, v) :: rest else (k0, v0) :: dinsert rest k v

/-- The emptiness test of the extractors: pd.isna(cell) or cell == ''. -/
def isBlankCell : Cell → Bool
  | Cell.empty => true
  | Cell.text s => s == ""
  | Cell.number _ => false

/-- df.iloc with nonnegative positional indices; out of range raises
IndexError. -/
def ilocNat (g : Grid) (i j : Nat) : Except PyErr Cell :=
  match g.get? i with
  | none => Except.error PyErr.indexError
  | some row =>
    match row.get? j with
    | none => Except.error PyErr.indexError
    | some c => Except.ok c

/-- df.iloc with a possibly negative row index (Python indexing wraps a
negative index once from the end). -/
def ilocRowInt (g : Grid) (i : Int) (j : Nat) : Except PyErr Cell :=
  let n : Int := g.length
  let i2 : Int := if i < 0 then i + n else i
  if 0 ≤ i2 ∧ i2 < n then ilocNat g i2.toNat j else Except.error PyErr.indexError

/-- The action a row of the income-statement extractor decides on:
raise, stop, continue with a new last_was_numeric flag, or record an
entry and continue with a new flag. -/
inductive StepAct where
  | raise : PyErr → StepAct
  | stop : StepAct
  | skip : Bool → StepAct
  | emit : String → PyFloat → Bool → StepAct

deriving instance DecidableEq for StepAct

/-- Rule B body shared by the 4-digit-text and numeric-code branches:
key = df.iloc[i, c+1].strip() (AttributeError on a non-string),
value = float(df.iloc[i, c+3]) (coercion failure skips the entry),
last_was_numeric becomes True either way. -/
def ruleBErf (g : Grid) (sc i : Nat) : StepAct :=
  match ilocNat g i (sc + 1) with
  | Except.error e => StepAct.raise e
  | Except.ok (Cell.text ls) =>
    match ilocNat g i (sc + 3) with
    | Except.error e => StepAct.raise e
    | Except.ok vc =>
      match pyFloatCell vc with
      | some v => StepAct.emit (String.mk (pyStrip ls.data)) v true
      | none => StepAct.skip true
  | Except.ok _ => StepAct.raise PyErr.attributeError

/-- Row classification of parse_erfolgsrechnung.extract_data at row i,
column sc, given the current last_was_numeric flag. -/
def erfStep (g : Grid) (sc i : Nat) (lastNum : Bool) : StepAct :=
  match ilocNat g i sc with
  | Except.error e => StepAct.raise e
  | Except.ok cell =>
    if isBlankCell cell then
      if lastNum then StepAct.stop else StepAct.skip lastNum
    else
      match cell with
      | Cell.text s =>
        let t := pyStrip s.data
        if pyIsDigitL t = false then
          match ilocNat g i (sc + 3) with
          | Except.error e => StepAct.raise e
          | Except.ok vc =>
            match pyFloatCell vc with
            | some v => StepAct.emit (String.mk t) v false
            | none => StepAct.skip false
        else if t.length = 4 then ruleBErf g sc i
        else StepAct.skip lastNum
      | Cell.number q =>
        if leNum (natNum 1000) q && ltNum q (natNum 10000) then ruleBErf g sc i
        else StepAct.skip lastNum
      | Cell.empty => StepAct.skip lastNum

/-- The downward scan of the income-statement extractor over the listed
row indices, threading the last_was_numeric flag and the dict. -/
def goErf (g : Grid) (sc : Nat) : List Nat → Bool → Dict → Except PyErr Dict
  | [], _, d => Except.ok d
  | i :: rest, lastNum, d =>
    match erfStep g sc i lastNum with
    | StepAct.raise e => Except.error e
    | StepAct.stop => Except.ok d
    | StepAct.skip b2 => goErf g sc rest b2 d
    | StepAct.emit k v b2 => goErf g sc rest b2 (dinsert d k v)

/-- extract_data of parse_erfolgsrechnung from an anchor:
for i in range(start_row, len(df)), starting with last_was_numeric
False and an empty dict. -/
def extractErf (g : Grid) (sr sc : Nat) : Except PyErr Dict :=
  goErf g sc (List.range' sr (g.length - sr)) false []

/-- The guarded call: a missing anchor (row -1) skips extraction and
leaves the dict empty. -/
def extractErfSection (g : Grid) : Option (Nat × Nat) → Except PyErr Dict
  | none => Except.ok []
  | some (r, c) => extractErf g r c

/-- parse_erfolgsrechnung: locate the two anchors, then extract
Erträge and afterwards Aufwände; an uncaught exception propagates. -/
def parseErfolgsrechnung (g : Grid) : Except PyErr (Dict × Dict) :=
  let locs := locatePair g "Erträge" "Aufwände"
  match extractErfSection g locs.1 with
  | Except.error e => Except.error e
  | Except.ok de =>
    match extractErfSection g locs.2 with
    | Except.error e => Except.error e
    | Except.ok da => Except.ok (de, da)

/-- The action a row of the balance-sheet extractor decides on: raise,
stop, continue with a new blank counter, or record an entry (after
which the counter is reset to zero). -/
inductive BStep where
  | raise : PyErr → BStep
  | stop : BStep
  | skipC : Nat → BStep
  | emit : String → PyFloat → BStep

deriving instance DecidableEq for BStep

/-- Rule B body of parse_bilanz.extract_data (the try covers the float
coercion only; IndexError and AttributeError escape it). -/
def ruleBBil (g : Grid) (sc i : Nat) : BStep :=
  match ilocNat g i (sc + 1) with
  | Except.error e => BStep.raise e
  | Except.ok (Cell.text ls) =>
    match ilocNat g i (sc + 3) with
    | Except.error e => BStep.raise e
    | Except.ok vc =>
      match pyFloatCell vc with
      | some v => BStep.emit (String.mk (pyStrip ls.data)) v
      | none => BStep.skipC 0
  | Except.ok _ => BStep.raise PyErr.attributeError

/-- Row classification of parse_bilanz.extract_data at row i, column
sc, given the consecutive-blank-row counter: a blank row increments the
counter when one is already running, otherwise starts it at 1 when the
row above is non-blank (df.iloc[i-1, sc], Python index wrap included);
reaching 3 stops; a non-blank row resets the counter and applies the
rules. -/
def bilStep (g : Grid) (sc i counter : Nat) : BStep :=
  match ilocNat g i sc with
  | Except.error e => BStep.raise e
  | Except.ok cell =>
    if isBlankCell cell then
      match (if 0 < counter then Except.ok (counter + 1)
             else
               match ilocRowInt g ((i : Int) - 1) sc with
               | Except.error e => Except.error e
               | Except.ok prev =>
                 Except.ok (if isBlankCell prev then counter else 1)) with
      | Except.error e => BStep.raise e
      | Except.ok c2 => if 3 ≤ c2 then BStep.stop else BStep.skipC c2
    else
      match cell with
      | Cell.text s =>
        let t := pyStrip s.data
        if pyIsDigitL t = false then
          match ilocNat g i (sc + 3) with
          | Except.error e => BStep.raise e
          | Except.ok vc =>
            match pyFloatCell vc with
            | some v => BStep.emit (String.mk t) v
            | none => BStep.skipC 0
        else if t.length = 4 then ruleBBil g sc i
        else BStep.skipC 0
      | Cell.number q =>
        if leNum (natNum 1000) q && ltNum q (natNum 10000) then ruleBBil g sc i
        else BStep.skipC 0
      | Cell.empty => BStep.skipC 0

/-- The downward scan of the balance-sheet extractor over the listed
row indices, threading the blank counter and the dict. -/
def goBil (g : Grid) (sc : Nat) : List Nat → Nat → Dict → Except PyErr Dict
  | [], _, d => Except.ok d
  | i :: rest, counter, d =>
    match bilStep g sc i counter with
    | BStep.raise e => Except.error e
    | BStep.stop => Except.ok d
    | BStep.skipC c2 => goBil g sc rest c2 d
    | BStep.emit k v => goBil g sc rest 0 (dinsert d k v)

/-- extract_data of parse_bilanz from an anchor. -/
def extractBil (g : Grid) (sr sc : Nat) : Except PyErr Dict :=
  goBil g sc (List.range' sr (g.length - sr)) 0 []

/-- The guarded call of the balance-sheet extractor. -/
def extractBilSection (g : Grid) : Option (Nat × Nat) → Except PyErr Dict
  | none => Except.ok []
  | some (r, c) => extractBil g r c

/-- parse_bilanz: locate the two anchors, then extract Aktiva and
afterwards Passiva. -/
def parseBilanz (g : Grid) : Except PyErr (Dict × Dict) :=
  let locs := locatePair g "Aktiva" "Passiva"
  match extractBilSection g locs.1 with
  | Except.error e => Except.error e
  | Except.ok da =>
    match extractBilSection g locs.2 with
    | Except.error e => Except.error e
    | Except.ok dp => Except.ok (da, dp)

/-- Is the cell absent (the pd.isna test of the dropna steps)? -/
def cellIsEmptyB (c : Cell) : Bool :=
  match c with
  | Cell.empty => true
  | _ => false

/-- Is every cell of the row absent? -/
def rowAllEmpty (r : List Cell) : Bool := r.all cellIsEmptyB

/-- df.dropna(how='all', axis=0): drop rows absent in every column. -/
def dropEmptyRows (g : Grid) : Grid := g.filter (fun r => !rowAllEmpty r)

/-- Is column j absent in every row of g? -/
def colAllEmpty (g : Grid) (j : Nat) : Bool :=
  g.all (fun r => cellIsEmptyB (r.getD j Cell.empty))

/-- df.dropna(how='all', axis=1): keep the columns not absent in every
remaining row. -/
def dropEmptyCols (g : Grid) : Grid :=
  let keep := (List.range (numCols g)).filter (fun j => !colAllEmpty g j)
  g.map (fun r => keep.map (fun j => r.getD j Cell.empty))

/-- df.map(parse_iso_currency) then df.fillna(''): the per-cell
composite (normalization keeps absent cells absent, so the two
dataframe passes compose cellwise). -/
def normFill (c : Cell) : Cell :=
  match parseIsoCurrency c with
  | Cell.empty => Cell.text ""
  | c2 => c2

/-- process_dataframe of load_financial_data: drop absent rows, drop
absent columns, normalize every cell, replace residual absent cells by
empty text.  (The renaming to 'Spalte i+1' labels leaves the positional
content untouched; the grid model addresses columns positionally.) -/
def processDataframe (g : Grid) : Grid :=
  (dropEmptyCols (dropEmptyRows g)).map (fun r => r.map normFill)

/-- The kept row indices: rows with at least one present cell. -/
def keptRowIdx (g : Grid) : List Nat :=
  (List.range g.length).filter (fun i => !rowAllEmpty (g.getD i []))

/-- The kept column indices: columns with a present cell in some kept
row. -/
def keptColIdx (g : Grid) : List Nat :=
  (List.range (numCols g)).filter
    (fun j => (keptRowIdx g).any (fun i => !cellIsEmptyB (cellAtD g i j)))

/-- The claim-side description of the loader: the grid restricted to
the kept row and column index sets, each surviving cell normalized and
absent cells replaced by empty text. -/
def specProcess (g : Grid) : Grid :=
  (keptRowIdx g).map (fun i => (keptColIdx g).map (fun j => normFill (cellAtD g i j)))

/-- Rectangularity of a grid (pandas frames always are). -/
def rectB (g : Grid) : Bool := g.all (fun r => r.length == numCols g)

/-- The positional column labels assigned after processing
(new_columns = ['Spalte 1', 'Spalte 2', ...]). -/
def spalteLabels (g : Grid) : List String :=
  (List.range (numCols g)).map (fun i => "Spalte " ++ toString (i + 1))

/-- Filtering a list equals selecting the passing indices from the
index range and reading them back. -/
lemma filter_eq_idx_map {α : Type} (p : α → Bool) (d : α) :
    ∀ l : List α,
      l.filter p
        = ((List.range l.length).filter (fun i => p (l.getD i d))).map
            (fun i => l.getD i d) := by
  intro l
  induction l with
  | nil => rfl
  | cons a t ih =>
    have hq : ((fun i => p ((a :: t).getD i d)) ∘ Nat.succ)
        = (fun i => p (t.getD i d)) := by
      funext i
      rfl
    have hf : ((fun i => (a :: t).getD i d) ∘ Nat.succ)
        = (fun i => t.getD i d) := by
      funext i
      rfl
    by_cases hpa : p a
    · simp only [List.filter_cons, hpa, if_true, List.length_cons,
        List.range_succ_eq_map, List.getD_cons_zero, List.filter_map, hq,
        List.map_cons, List.map_map, hf, ih]
    · simp only [List.filter_cons, hpa, if_false, List.length_cons,
        List.range_succ_eq_map, List.getD_cons_zero, List.filter_map, hq,
        List.map_map, hf, ih, Bool.false_eq_true]

/-- all over a (heterogeneous) map. -/
lemma all_over_map {α β : Type} (f : α → β) (p : β → Bool) :
    ∀ l : List α, (l.map f).all p = l.all (fun x => p (f x)) := by
  intro l
  induction l with
  | nil => rfl
  | cons a t ih => simp [List.all_cons, ih]

/-- De Morgan for the Bool list quantifiers. -/
lemma not_all_eq_any_not {α : Type} (p : α → Bool) :
    ∀ l : List α, (!l.all p) = l.any (fun x => !p x) := by
  intro l
  induction l with
  | nil => rfl
  | cons a t ih => simp [List.all_cons, List.any_cons, ih]

/-- Claim C1: the US/Swiss half of the claim holds: a currency code next
to an apostrophe-grouped number normalizes to 1234.50.  The European
half fails on the code: for "1.234,50 CHF" the first (US/Swiss) pass
does not fail — deleting the comma leaves the valid literal "1.23450" —
so the European pass is never reached and the result is 1.23, not
1234.50. -/
theorem c1_iso_currency_eval :
    parseIsoCurrency (Cell.text ("CHF 1" ++ String.mk [apoChar] ++ "234.50"))
        = Cell.number (mkPyNum 2469 2)
    ∧ parseIsoCurrency (Cell.text "1.234,50 CHF") = Cell.number (mkPyNum 123 100) := by
  constructor
  · rfl
  · rfl

/-- Claim C2: on a grid whose anchor leaves the amount column (anchor
column + 3) outside the grid, extraction does not skip the entry: the
positional lookup raises IndexError, which the except clauses (they
catch only ValueError and TypeError) do not intercept, so the fault
propagates to the caller of parse_erfolgsrechnung. -/
theorem c2_short_row_raises :
    parseErfolgsrechnung [[Cell.text "Erträge"]] = Except.error PyErr.indexError := by
  rfl

/-- Claim C3: a Rule B row whose label cell (anchor column + 1) is
absent does not skip the entry: .strip() on the non-string raises
AttributeError outside any handler, which propagates to the caller. -/
theorem c3_rule_b_label_raises :
    parseErfolgsrechnung
        [[Cell.text "Erträge", Cell.text "", Cell.text "", Cell.text ""],
         [Cell.text "1000", Cell.empty, Cell.text "", Cell.text "50"]]
      = Except.error PyErr.attributeError := by
  rfl

/-- Claim C4, counterexample: the row "123" (a digit string of length
3) matches no classification rule, so it leaves last_was_numeric
untouched; the blank row after it therefore stops extraction — the
entry "Extra" below the blank is never reached — although the row
immediately preceding the blank was not classified as a Rule B
numeric-code row (erfStep on it is a flag-preserving skip). -/
theorem c4_stop_not_immediate_pred :
    parseErfolgsrechnung [
      [Cell.text "Erträge", Cell.text "", Cell.text "", Cell.text "", Cell.text ""],
      [Cell.text "1000", Cell.text "Miete", Cell.text "", Cell.text "50", Cell.text ""],
      [Cell.text "123", Cell.text "", Cell.text "", Cell.text "", Cell.text ""],
      [Cell.text "", Cell.text "", Cell.text "", Cell.text "", Cell.text ""],
      [Cell.text "Extra", Cell.text "", Cell.text "", Cell.text "7", Cell.text ""]]
      = Except.ok ([("Miete", PyFloat.num (natNum 50))], [])
    ∧ erfStep [
        [Cell.text "Erträge", Cell.text "", Cell.text "", Cell.text "", Cell.text ""],
        [Cell.text "1000", Cell.text "Miete", Cell.text "", Cell.text "50", Cell.text ""],
        [Cell.text "123", Cell.text "", Cell.text "", Cell.text "", Cell.text ""],
        [Cell.text "", Cell.text "", Cell.text "", Cell.text "", Cell.text ""],
        [Cell.text "Extra", Cell.text "", Cell.text "", Cell.text "7", Cell.text ""]]
        0 2 true = StepAct.skip true := by
  constructor
  · rfl
  · rfl

/-- Claim C5: the balance-sheet blank counter.  First grid: an isolated
blank row inside the section is tolerated (entries of both content
blocks appear) and the scan stops exactly at the third consecutive
blank row, so "Extra" below it is not collected.  Second grid: after
only two consecutive blank rows a content row resets the counter and is
still collected.  The step equations state the counter dynamics on the
embedded step function: a blank row with a running counter increments
it, a blank row after content starts it at 1, reaching 3 stops, and a
non-blank row resets it to zero (every non-raise action of a non-blank
row recurses with counter 0 by definition of goBil). -/
theorem c5_blank_counter :
    parseBilanz [
      [Cell.text "Aktiva", Cell.text "", Cell.text "", Cell.text "100"],
      [Cell.text "Kasse", Cell.text "", Cell.text "", Cell.text "10"],
      [Cell.text "", Cell.text "", Cell.text "", Cell.text ""],
      [Cell.text "Bank", Cell.text "", Cell.text "", Cell.text "20"],
      [Cell.text "", Cell.text "", Cell.text "", Cell.text ""],
      [Cell.text "", Cell.text "", Cell.text "", Cell.text ""],
      [Cell.text "", Cell.text "", Cell.text "", Cell.text ""],
      [Cell.text "Extra", Cell.text "", Cell.text "", Cell.text "99"]]
      = Except.ok ([("Aktiva", PyFloat.num (natNum 100)), ("Kasse", PyFloat.num (natNum 10)),
                    ("Bank", PyFloat.num (natNum 20))], [])
    ∧ parseBilanz [
      [Cell.text "Aktiva", Cell.text "", Cell.text "", Cell.text "100"],
      [Cell.text "", Cell.text "", Cell.text "", Cell.text ""],
      [Cell.text "Bank", Cell.text "", Cell.text "", Cell.text "20"],
      [Cell.text "", Cell.text "", Cell.text "", Cell.text ""],
      [Cell.text "", Cell.text "", Cell.text "", Cell.text ""],
      [Cell.text "Extra", Cell.text "", Cell.text "", Cell.text "99"]]
      = Except.ok ([("Aktiva", PyFloat.num (natNum 100)), ("Bank", PyFloat.num (natNum 20)),
                    ("Extra", PyFloat.num (natNum 99))], [])
    ∧ (∀ g sc i counter cell, ilocNat g i sc = Except.ok cell →
        isBlankCell cell = true → 0 < counter →
        bilStep g sc i counter
          = (if 3 ≤ counter + 1 then BStep.stop else BStep.skipC (counter + 1)))
    ∧ (∀ g sc i cell prev, ilocNat g i sc = Except.ok cell →
        isBlankCell cell = true →
        ilocRowInt g ((i : Int) - 1) sc = Except.ok prev →
        isBlankCell prev = false →
        bilStep g sc i 0 = BStep.skipC 1)
    ∧ (∀ g sc rest i counter d, bilStep g sc i counter = BStep.stop →
        goBil g sc (i :: rest) counter d = Except.ok d)
    ∧ (∀ g sc rest i counter d k v, bilStep g sc i counter = BStep.emit k v →
        goBil g sc (i :: rest) counter d = goBil g sc rest 0 (dinsert d k v)) := by
  refine ⟨rfl, rfl, ?_, ?_, ?_, ?_⟩
  · intro g sc i counter cell h1 h2 h3
    simp only [bilStep, h1, h2, if_pos h3, if_true]
  · intro g sc i cell prev h1 h2 h3 h4
    simp only [bilStep, h1, h2, h3, h4]
    norm_num
  · intro g sc rest i counter d h
    simp only [goBil, h]
  · intro g sc rest i counter d k v h
    simp only [goBil, h]

/-- find? distributes over append, first list first. -/
lemma find?_app {α : Type} (p : α → Bool) (l1 l2 : List α) :
    (l1 ++ l2).find? p
      = (match l1.find? p with
         | some x => some x
         | none => l2.find? p) := by
  induction l1 with
  | nil => simp
  | cons x l1 ih =>
    by_cases h : p x
    · simp [List.find?, h]
    · simp only [List.cons_append, List.find?]
      rw [Bool.not_eq_true] at h
      rw [h]
      exact ih

/-- The first anchor of the overwriting scan is the last match of the
first marker's test. -/
lemma locStep_foldl_fst (m1 m2 : String) :
    ∀ (L : List (Nat × Nat × Cell)) (a : Option (Nat × Nat) × Option (Nat × Nat)),
      (L.foldl (locStep m1 m2) a).1
        = (match L.reverse.find? (fun e => isTextContaining m1 e.2.2) with
           | some e => some (e.1, e.2.1)
           | none => a.1) := by
  intro L
  induction L with
  | nil => intro a; simp
  | cons x L ih =>
    intro a
    rw [List.foldl_cons, ih, List.reverse_cons,
      find?_app (fun e => isTextContaining m1 e.2.2) L.reverse [x]]
    cases hf : L.reverse.find? (fun e => isTextContaining m1 e.2.2) with
    | some e => rfl
    | none =>
      by_cases hx : isTextContaining m1 x.2.2
      · simp [List.find?, hx, locStep]
      · rw [Bool.not_eq_true] at hx
        by_cases hx2 : isTextContaining m2 x.2.2
        · simp [List.find?, hx, hx2, locStep]
        · rw [Bool.not_eq_true] at hx2
          simp [List.find?, hx, hx2, locStep]

/-- The second anchor of the overwriting scan is the last match of the
second marker's test, which the elif restricts to cells not containing
the first marker. -/
lemma locStep_foldl_snd (m1 m2 : String) :
    ∀ (L : List (Nat × Nat × Cell)) (a : Option (Nat × Nat) × Option (Nat × Nat)),
      (L.foldl (locStep m1 m2) a).2
        = (match L.reverse.find?
              (fun e => !isTextContaining m1 e.2.2 && isTextContaining m2 e.2.2) with
           | some e => some (e.1, e.2.1)
           | none => a.2) := by
  intro L
  induction L with
  | nil => intro a; simp
  | cons x L ih =>
    intro a
    rw [List.foldl_cons, ih, List.reverse_cons,
      find?_app (fun e => !isTextContaining m1 e.2.2 && isTextContaining m2 e.2.2)
        L.reverse [x]]
    cases hf : L.reverse.find?
        (fun e => !isTextContaining m1 e.2.2 && isTextContaining m2 e.2.2) with
    | some e => rfl
    | none =>
      by_cases hx1 : isTextContaining m1 x.2.2
      · simp [List.find?, hx1, locStep]
      · rw [Bool.not_eq_true] at hx1
        by_cases hx2 : isTextContaining m2 x.2.2
        · simp [List.find?, hx1, hx2, locStep]
        · rw [Bool.not_eq_true] at hx2
          simp [List.find?, hx1, hx2, locStep]

/-- Every cell of the row-major enumeration is either a member of its
row or the out-of-range default (the absent cell). -/
lemma cellsRM_cases {g : Grid} {e : Nat × Nat × Cell} (he : e ∈ cellsRM g) :
    e.2.2 = Cell.empty ∨ ∃ r ∈ g, e.2.2 ∈ r := by
  rcases List.mem_flatMap.mp he with ⟨i, _, hmap⟩
  rcases List.mem_map.mp hmap with ⟨j, _, hej⟩
  subst hej
  show cellAtD g i j = Cell.empty ∨ ∃ r ∈ g, cellAtD g i j ∈ r
  unfold cellAtD
  rw [List.getD_eq_getElem?_getD g i]
  cases hg : g[i]? with
  | none => left; simp
  | some r =>
    have hrg : r ∈ g := List.getElem?_mem hg
    rw [Option.getD_some, List.getD_eq_getElem?_getD r j]
    cases hr : r[j]? with
    | none => left; simp
    | some c =>
      right
      exact ⟨r, hrg, by rw [Option.getD_some]; exact List.getElem?_mem hr⟩

/-- If no cell of the grid passes the test, the scan records no anchor
for it (stated for both components of the scan). -/
lemma locate_none_of_no_match (g : Grid) (m1 m2 : String) :
    ((∀ r ∈ g, ∀ c ∈ r, isTextContaining m1 c = false) →
      (locatePair g m1 m2).1 = none)
    ∧ ((∀ r ∈ g, ∀ c ∈ r, isTextContaining m2 c = false) →
      (locatePair g m1 m2).2 = none) := by
  constructor
  · intro h
    rw [locatePair, locStep_foldl_fst]
    have : (cellsRM g).reverse.find? (fun e => isTextContaining m1 e.2.2) = none := by
      rw [List.find?_eq_none]
      intro e he
      rcases cellsRM_cases (List.mem_reverse.mp he) with h0 | ⟨r, hr, hc⟩
      · simp [h0, isTextContaining]
      · simp [h r hr e.2.2 hc]
    rw [this]
  · intro h
    rw [locatePair, locStep_foldl_snd]
    have : (cellsRM g).reverse.find?
        (fun e => !isTextContaining m1 e.2.2 && isTextContaining m2 e.2.2) = none := by
      rw [List.find?_eq_none]
      intro e he
      rcases cellsRM_cases (List.mem_reverse.mp he) with h0 | ⟨r, hr, hc⟩
      · simp [h0, isTextContaining]
      · simp [h r hr e.2.2 hc]
    rw [this]

/-- Claim C4, amended: an empty cell stops the income-statement scan
exactly when the threaded last_was_numeric flag is set, and is skipped
with the flag unchanged otherwise; Rule A rows clear the flag, Rule B
rows set it — in both Rule B shapes, a 4-digit text code and a numeric
value in [1000, 10000) — and rows matching no rule (a digit text of
another length, or a number outside [1000, 10000)) leave it unchanged.
The first concrete grid shows an empty row after a Rule A row being
skipped, with extraction continuing to the entry below the gap; the
second shows a numeric-code row setting the flag so that the next
blank stops the scan before "Extra"; the third shows an out-of-range
number leaving the flag set by the text-code row above it, the blank
after it again stopping the scan before "Extra". -/
theorem c4_stop_rule_flag_semantics :
    (∀ g sc i rest b d cell, ilocNat g i sc = Except.ok cell →
        isBlankCell cell = true →
        goErf g sc (i :: rest) b d
          = (if b then Except.ok d else goErf g sc rest b d))
    ∧ (∀ g sc i b cell, ilocNat g i sc = Except.ok cell →
        isBlankCell cell = true →
        erfStep g sc i b = (if b then StepAct.stop else StepAct.skip b))
    ∧ (∀ g sc i b s vc, ilocNat g i sc = Except.ok (Cell.text s) →
        isBlankCell (Cell.text s) = false →
        pyIsDigitL (pyStrip s.data) = false →
        ilocNat g i (sc + 3) = Except.ok vc →
        erfStep g sc i b
          = (match pyFloatCell vc with
             | some v => StepAct.emit (String.mk (pyStrip s.data)) v false
             | none => StepAct.skip false))
    ∧ (∀ g sc i b s ls vc, ilocNat g i sc = Except.ok (Cell.text s) →
        isBlankCell (Cell.text s) = false →
        pyIsDigitL (pyStrip s.data) = true → (pyStrip s.data).length = 4 →
        ilocNat g i (sc + 1) = Except.ok (Cell.text ls) →
        ilocNat g i (sc + 3) = Except.ok vc →
        erfStep g sc i b
          = (match pyFloatCell vc with
             | some v => StepAct.emit (String.mk (pyStrip ls.data)) v true
             | none => StepAct.skip true))
    ∧ (∀ g sc i b s, ilocNat g i sc = Except.ok (Cell.text s) →
        isBlankCell (Cell.text s) = false →
        pyIsDigitL (pyStrip s.data) = true → (pyStrip s.data).length ≠ 4 →
        erfStep g sc i b = StepAct.skip b)
    ∧ (∀ g sc i b q ls vc, ilocNat g i sc = Except.ok (Cell.number q) →
        (leNum (natNum 1000) q && ltNum q (natNum 10000)) = true →
        ilocNat g i (sc + 1) = Except.ok (Cell.text ls) →
        ilocNat g i (sc + 3) = Except.ok vc →
        erfStep g sc i b
          = (match pyFloatCell vc with
             | some v => StepAct.emit (String.mk (pyStrip ls.data)) v true
             | none => StepAct.skip true))
    ∧ (∀ g sc i b q, ilocNat g i sc = Except.ok (Cell.number q) →
        (leNum (natNum 1000) q && ltNum q (natNum 10000)) = false →
        erfStep g sc i b = StepAct.skip b)
    ∧ parseErfolgsrechnung [
        [Cell.text "Erträge", Cell.text "", Cell.text "", Cell.text "", Cell.text ""],
        [Cell.text "", Cell.text "", Cell.text "", Cell.text "", Cell.text ""],
        [Cell.text "Posten", Cell.text "", Cell.text "", Cell.text "9", Cell.text ""]]
        = Except.ok ([("Posten", PyFloat.num (natNum 9))], [])
    ∧ parseErfolgsrechnung [
        [Cell.text "Erträge", Cell.text "", Cell.text "", Cell.text "", Cell.text ""],
        [Cell.number (natNum 1000), Cell.text "Miete", Cell.text "", Cell.text "50",
          Cell.text ""],
        [Cell.text "", Cell.text "", Cell.text "", Cell.text "", Cell.text ""],
        [Cell.text "Extra", Cell.text "", Cell.text "", Cell.text "7", Cell.text ""]]
        = Except.ok ([("Miete", PyFloat.num (natNum 50))], [])
    ∧ parseErfolgsrechnung [
        [Cell.text "Erträge", Cell.text "", Cell.text "", Cell.text "", Cell.text ""],
        [Cell.text "1000", Cell.text "Miete", Cell.text "", Cell.text "50", Cell.text ""],
        [Cell.number (natNum 500), Cell.text "", Cell.text "", Cell.text "", Cell.text ""],
        [Cell.text "", Cell.text "", Cell.text "", Cell.text "", Cell.text ""],
        [Cell.text "Extra", Cell.text "", Cell.text "", Cell.text "7", Cell.text ""]]
        = Except.ok ([("Miete", PyFloat.num (natNum 50))], []) := by
  refine ⟨?_, ?_, ?_, ?_, ?_, ?_, ?_, rfl, rfl, rfl⟩
  · intro g sc i rest b d cell h1 h2
    simp only [goErf, erfStep, h1, h2, if_true]
    cases b <;> rfl
  · intro g sc i b cell h1 h2
    simp only [erfStep, h1, h2, if_true]
  · intro g sc i b s vc h1 h2 h3 h4
    simp [erfStep, h1, h2, h3, h4]
  · intro g sc i b s ls vc h1 h2 h3 h4 h5 h6
    simp [erfStep, ruleBErf, h1, h2, h3, h4, h5, h6]
  · intro g sc i b s h1 h2 h3 h4
    simp [erfStep, h1, h2, h3, h4]
  · intro g sc i b q ls vc h1 h2 h3 h4
    simp [erfStep, ruleBErf, isBlankCell, h1, h2, h3, h4]
  · intro g sc i b q h1 h2
    simp [erfStep, isBlankCell, h1, h2]

/-- Witness for the amended C4 stop rule: on a one-cell grid holding
empty text, the scan step with a clear flag skips the row and the scan
continues (here: terminates with the empty dict). -/
theorem c4_stop_rule_flag_semantics_witness :
    goErf [[Cell.text ""]] 0 [0] false []
      = (if false then Except.ok [] else goErf [[Cell.text ""]] 0 [] false []) :=
  c4_stop_rule_flag_semantics.1 [[Cell.text ""]] 0 0 [] false [] (Cell.text "")
    rfl rfl

/-- Witness for C5's counter equations: a blank row below content with
a running counter of 1 continues the scan with the counter at 2. -/
theorem c5_blank_counter_witness :
    bilStep [[Cell.text "Aktiva"], [Cell.text ""]] 0 1 1
      = (if 3 ≤ 1 + 1 then BStep.stop else BStep.skipC (1 + 1)) :=
  c5_blank_counter.2.2.1 [[Cell.text "Aktiva"], [Cell.text ""]] 0 1 1
    (Cell.text "") rfl rfl (by decide)

/-- Claim C6, counterexample: the marker "Aufwände" appears as a
substring of two text cells, at (0,0) and — inside "Erträge Aufwände" —
at (1,0); the last matching cell in row-major order is (1,0), yet the
recorded anchor is (0,0), because the scan's elif never tests a cell
for "Aufwände" once it contains "Erträge". -/
theorem c6_last_occurrence_fails :
    locatePair [[Cell.text "Aufwände 1"], [Cell.text "Erträge Aufwände"]]
        "Erträge" "Aufwände" = (some (1, 0), some (0, 0))
    ∧ lastMatchRM [[Cell.text "Aufwände 1"], [Cell.text "Erträge Aufwände"]]
        (isTextContaining "Aufwände") = some (1, 0) := by
  constructor
  · rfl
  · rfl

/-- Claim C6, amended: the recorded anchor of each marker is the last
cell in row-major scan order passing that marker's test, where the
first marker's test is substring containment and — because of the scan's
elif — the second marker's test is containment of the second marker in
a cell that does not contain the first. -/
theorem c6_anchor_last_match_with_elif (g : Grid) (m1 m2 : String) :
    locatePair g m1 m2
      = (lastMatchRM g (isTextContaining m1),
         lastMatchRM g (fun c => !isTextContaining m1 c && isTextContaining m2 c)) := by
  apply Prod.ext
  · rw [locatePair, locStep_foldl_fst]
    rfl
  · rw [locatePair, locStep_foldl_snd]
    rfl

/-- Claim C7: a marker contained in no cell of the grid yields no
anchor, and an absent anchor skips extraction entirely, returning the
empty mapping for that section without any exception (both extractor
variants). -/
theorem c7_missing_marker_empty_mapping (g : Grid) (m1 m2 : String) :
    ((∀ r ∈ g, ∀ c ∈ r, isTextContaining m1 c = false) →
      (locatePair g m1 m2).1 = none)
    ∧ ((∀ r ∈ g, ∀ c ∈ r, isTextContaining m2 c = false) →
      (locatePair g m1 m2).2 = none)
    ∧ extractErfSection g none = Except.ok []
    ∧ extractBilSection g none = Except.ok [] :=
  ⟨(locate_none_of_no_match g m1 m2).1, (locate_none_of_no_match g m1 m2).2,
   rfl, rfl⟩

/-- Witness for C7: a grid without "Erträge" records no anchor for it
and the guarded extraction returns the empty mapping. -/
theorem c7_missing_marker_empty_mapping_witness :
    (locatePair [[Cell.text "Hallo"]] "Erträge" "Aufwände").1 = none
    ∧ extractErfSection [[Cell.text "Hallo"]] none = Except.ok [] :=
  ⟨(c7_missing_marker_empty_mapping [[Cell.text "Hallo"]] "Erträge" "Aufwände").1
      (by decide),
   (c7_missing_marker_empty_mapping [[Cell.text "Hallo"]] "Erträge" "Aufwände").2.2.1⟩

/-- Claim C8: parse_iso_currency is the identity on absent cells and on
numbers (non-strings pass through), and on every text in which neither
search — code before number, then number before code — finds a
3-uppercase-letter token adjacent to a numeric token. -/
theorem c8_identity_non_monetary :
    parseIsoCurrency Cell.empty = Cell.empty
    ∧ (∀ q, parseIsoCurrency (Cell.number q) = Cell.number q)
    ∧ (∀ s, findPat1 s.data = none → findPat2 s.data = none →
        parseIsoCurrency (Cell.text s) = Cell.text s) := by
  refine ⟨rfl, fun q => rfl, ?_⟩
  intro s h1 h2
  simp [parseIsoCurrency, h1, h2]

/-- Witness for C8: neither pattern matches in "Hallo 123", and
normalization leaves the text unchanged. -/
theorem c8_identity_non_monetary_witness :
    findPat1 "Hallo 123".data = none ∧ findPat2 "Hallo 123".data = none
    ∧ parseIsoCurrency (Cell.text "Hallo 123") = Cell.text "Hallo 123" :=
  ⟨by decide, by decide,
   c8_identity_non_monetary.2.2 "Hallo 123" (by decide) (by decide)⟩

/-- Inserting into a dict rewrites to an if on the head key. -/
lemma dinsert_cons (k0 : String) (v0 : PyFloat) (tl : Dict) (k : String) (v : PyFloat) :
    dinsert ((k0, v0) :: tl) k v
      = (if k0 = k then (k0, v) :: tl else (k0, v0) :: dinsert tl k v) := rfl

/-- Through any income-statement scan the head key of a nonempty dict
is preserved: in-place update keeps the position, fresh keys append. -/
lemma goErf_head_key (g : Grid) (sc : Nat) (k : String) :
    ∀ (l : List Nat) (b : Bool) (v : PyFloat) (tl d' : Dict),
      goErf g sc l b ((k, v) :: tl) = Except.ok d' →
      ∃ v2 tl2, d' = (k, v2) :: tl2 := by
  intro l
  induction l with
  | nil =>
    intro b v tl d' h
    simp only [goErf, Except.ok.injEq] at h
    exact ⟨v, tl, h.symm⟩
  | cons i rest ih =>
    intro b v tl d' h
    simp only [goErf] at h
    cases hs : erfStep g sc i b with
    | raise e => rw [hs] at h; exact absurd h (by simp)
    | stop =>
      rw [hs] at h
      simp only [Except.ok.injEq] at h
      exact ⟨v, tl, h.symm⟩
    | skip b2 => rw [hs] at h; exact ih b2 v tl d' h
    | emit k2 v2 b2 =>
      rw [hs] at h
      have h2 : goErf g sc rest b2 (dinsert ((k, v) :: tl) k2 v2) = Except.ok d' := h
      rw [dinsert_cons] at h2
      by_cases hk : k = k2
      · rw [if_pos hk] at h2
        exact ih b2 v2 tl d' h2
      · rw [if_neg hk] at h2
        exact ih b2 v (dinsert tl k2 v2) d' h2

/-- When no later row emits the head key, even the head value is
preserved through the income-statement scan. -/
lemma goErf_head_val (g : Grid) (sc : Nat) (k : String) :
    ∀ (l : List Nat) (b : Bool) (v : PyFloat) (tl d' : Dict),
      (∀ i ∈ l, ∀ k2 v2 b0 b2, erfStep g sc i b0 = StepAct.emit k2 v2 b2 → k2 ≠ k) →
      goErf g sc l b ((k, v) :: tl) = Except.ok d' →
      ∃ tl2, d' = (k, v) :: tl2 := by
  intro l
  induction l with
  | nil =>
    intro b v tl d' _ h
    simp only [goErf, Except.ok.injEq] at h
    exact ⟨tl, h.symm⟩
  | cons i rest ih =>
    intro b v tl d' hno h
    simp only [goErf] at h
    cases hs : erfStep g sc i b with
    | raise e => rw [hs] at h; exact absurd h (by simp)
    | stop =>
      rw [hs] at h
      simp only [Except.ok.injEq] at h
      exact ⟨tl, h.symm⟩
    | skip b2 =>
      rw [hs] at h
      exact ih b2 v tl d' (fun j hj => hno j (List.mem_cons_of_mem i hj)) h
    | emit k2 v2 b2 =>
      have hk : k2 ≠ k := hno i (List.mem_cons_self i rest) k2 v2 b b2 hs
      rw [hs] at h
      have h2 : goErf g sc rest b2 (dinsert ((k, v) :: tl) k2 v2) = Except.ok d' := h
      rw [dinsert_cons, if_neg (fun he => hk he.symm)] at h2
      exact ih b2 v (dinsert tl k2 v2) d'
        (fun j hj => hno j (List.mem_cons_of_mem i hj)) h2

/-- Through any balance-sheet scan the head key of a nonempty dict is
preserved. -/
lemma goBil_head_key (g : Grid) (sc : Nat) (k : String) :
    ∀ (l : List Nat) (cnt : Nat) (v : PyFloat) (tl d' : Dict),
      goBil g sc l cnt ((k, v) :: tl) = Except.ok d' →
      ∃ v2 tl2, d' = (k, v2) :: tl2 := by
  intro l
  induction l with
  | nil =>
    intro cnt v tl d' h
    simp only [goBil, Except.ok.injEq] at h
    exact ⟨v, tl, h.symm⟩
  | cons i rest ih =>
    intro cnt v tl d' h
    simp only [goBil] at h
    cases hs : bilStep g sc i cnt with
    | raise e => rw [hs] at h; exact absurd h (by simp)
    | stop =>
      rw [hs] at h
      simp only [Except.ok.injEq] at h
      exact ⟨v, tl, h.symm⟩
    | skipC c2 => rw [hs] at h; exact ih c2 v tl d' h
    | emit k2 v2 =>
      rw [hs] at h
      have h2 : goBil g sc rest 0 (dinsert ((k, v) :: tl) k2 v2) = Except.ok d' := h
      rw [dinsert_cons] at h2
      by_cases hk : k = k2
      · rw [if_pos hk] at h2
        exact ih 0 v2 tl d' h2
      · rw [if_neg hk] at h2
        exact ih 0 v (dinsert tl k2 v2) d' h2

/-- When no later row emits the head key, even the head value is
preserved through the balance-sheet scan. -/
lemma goBil_head_val (g : Grid) (sc : Nat) (k : String) :
    ∀ (l : List Nat) (cnt : Nat) (v : PyFloat) (tl d' : Dict),
      (∀ i ∈ l, ∀ k2 v2 c0, bilStep g sc i c0 = BStep.emit k2 v2 → k2 ≠ k) →
      goBil g sc l cnt ((k, v) :: tl) = Except.ok d' →
      ∃ tl2, d' = (k, v) :: tl2 := by
  intro l
  induction l with
  | nil =>
    intro cnt v tl d' _ h
    simp only [goBil, Except.ok.injEq] at h
    exact ⟨tl, h.symm⟩
  | cons i rest ih =>
    intro cnt v tl d' hno h
    simp only [goBil] at h
    cases hs : bilStep g sc i cnt with
    | raise e => rw [hs] at h; exact absurd h (by simp)
    | stop =>
      rw [hs] at h
      simp only [Except.ok.injEq] at h
      exact ⟨tl, h.symm⟩
    | skipC c2 =>
      rw [hs] at h
      exact ih c2 v tl d' (fun j hj => hno j (List.mem_cons_of_mem i hj)) h
    | emit k2 v2 =>
      have hk : k2 ≠ k := hno i (List.mem_cons_self i rest) k2 v2 cnt hs
      rw [hs] at h
      have h2 : goBil g sc rest 0 (dinsert ((k, v) :: tl) k2 v2) = Except.ok d' := h
      rw [dinsert_cons, if_neg (fun he => hk he.symm)] at h2
      exact ih 0 v (dinsert tl k2 v2) d'
        (fun j hj => hno j (List.mem_cons_of_mem i hj)) h2

/-- Claim C10, amended: for an extraction run that returns (no
exception), the downward scan begins at the anchor row itself and
classifies the Rule-A anchor cell first: whenever the amount cell three
columns right of the anchor coerces to float, the returned mapping's
first entry carries the anchor cell's trimmed text as its key; its
amount is the anchor-row amount provided no later scanned row emits an
entry with that same key (a later equal key overwrites the amount in
place).  Both extractor variants. -/
theorem c10_first_entry_is_anchor (g : Grid) (r c : Nat) (s : String) (a : Cell)
    (v : PyFloat)
    (h1 : ilocNat g r c = Except.ok (Cell.text s))
    (h2 : isBlankCell (Cell.text s) = false)
    (h3 : pyIsDigitL (pyStrip s.data) = false)
    (h4 : ilocNat g r (c + 3) = Except.ok a)
    (h5 : pyFloatCell a = some v)
    (h6 : r < g.length) :
    (∀ d, extractErf g r c = Except.ok d →
      (∃ v2 tl, d = (String.mk (pyStrip s.data), v2) :: tl)
      ∧ ((∀ i ∈ List.range' (r + 1) (g.length - (r + 1)),
            ∀ k2 v2 b0 b2, erfStep g c i b0 = StepAct.emit k2 v2 b2 →
            k2 ≠ String.mk (pyStrip s.data)) →
          ∃ tl, d = (String.mk (pyStrip s.data), v) :: tl))
    ∧ (∀ d, extractBil g r c = Except.ok d →
      (∃ v2 tl, d = (String.mk (pyStrip s.data), v2) :: tl)
      ∧ ((∀ i ∈ List.range' (r + 1) (g.length - (r + 1)),
            ∀ k2 v2 c0, bilStep g c i c0 = BStep.emit k2 v2 →
            k2 ≠ String.mk (pyStrip s.data)) →
          ∃ tl, d = (String.mk (pyStrip s.data), v) :: tl)) := by
  have hrange : List.range' r (g.length - r)
      = r :: List.range' (r + 1) (g.length - (r + 1)) := by
    have hd : g.length - r = (g.length - (r + 1)) + 1 := by omega
    rw [hd, List.range'_succ]
  have hstepE : erfStep g c r false = StepAct.emit (String.mk (pyStrip s.data)) v false := by
    simp [erfStep, h1, h2, h3, h4, h5]
  have hstepB : bilStep g c r 0 = BStep.emit (String.mk (pyStrip s.data)) v := by
    simp [bilStep, h1, h2, h3, h4, h5]
  constructor
  · intro d hd
    rw [extractErf, hrange] at hd
    simp only [goErf, hstepE] at hd
    have hd2 : goErf g c (List.range' (r + 1) (g.length - (r + 1))) false
        ((String.mk (pyStrip s.data), v) :: []) = Except.ok d := hd
    exact ⟨goErf_head_key g c (String.mk (pyStrip s.data)) _ false v [] d hd2,
      fun hno => goErf_head_val g c (String.mk (pyStrip s.data)) _ false v [] d hno hd2⟩
  · intro d hd
    rw [extractBil, hrange] at hd
    simp only [goBil, hstepB] at hd
    have hd2 : goBil g c (List.range' (r + 1) (g.length - (r + 1))) 0
        ((String.mk (pyStrip s.data), v) :: []) = Except.ok d := hd
    exact ⟨goBil_head_key g c (String.mk (pyStrip s.data)) _ 0 v [] d hd2,
      fun hno => goBil_head_val g c (String.mk (pyStrip s.data)) _ 0 v [] d hno hd2⟩

/-- Witness for the amended C10: on a one-row balance-sheet grid with
anchor text "Aktiva" and amount cell "5", the returned mapping's first
entry is ("Aktiva", 5.0). -/
theorem c10_first_entry_is_anchor_witness :
    ∃ v2 tl, ([(("Aktiva" : String), PyFloat.num (natNum 5))] : Dict)
      = (("Aktiva" : String), v2) :: tl :=
  (((c10_first_entry_is_anchor
      [[Cell.text "Aktiva", Cell.text "", Cell.text "", Cell.text "5"]]
      0 0 "Aktiva" (Cell.text "5") (PyFloat.num (natNum 5))
      rfl rfl rfl rfl rfl (by decide)).2
    [(("Aktiva" : String), PyFloat.num (natNum 5))] rfl).1 : _)

/-- Claim C9: the loader pipeline — drop rows absent everywhere, then
drop columns absent in every remaining row, then normalize every
surviving cell and replace residual absent cells by empty text — equals
the declarative description: the grid restricted to the index set of
rows with a present cell and the index set of columns with a present
cell in some kept row, each cell normalized and filled; the column
labels are the positional 'Spalte i+1' sequence of the processed
width. -/
theorem c9_loader_pipeline (g : Grid) (hrect : rectB g = true) :
    processDataframe g = specProcess g
    ∧ spalteLabels (dropEmptyCols (dropEmptyRows g))
        = (List.range (numCols (dropEmptyCols (dropEmptyRows g)))).map
            (fun i => "Spalte " ++ toString (i + 1)) := by
  refine ⟨?_, rfl⟩
  have hrows : dropEmptyRows g = (keptRowIdx g).map (fun i => g.getD i []) := by
    rw [dropEmptyRows, filter_eq_idx_map (fun r => !rowAllEmpty r) [] g]
    rfl
  cases hk : keptRowIdx g with
  | nil =>
    have hD : dropEmptyRows g = [] := by rw [hrows, hk]; rfl
    simp only [processDataframe, specProcess, hD, hk]
    rfl
  | cons i0 irest =>
    have hDrop : dropEmptyRows g = (i0 :: irest).map (fun i => g.getD i []) := by
      rw [hrows, hk]
    have hi0 : i0 < g.length := by
      have hmem : i0 ∈ keptRowIdx g := by
        rw [hk]
        exact List.mem_cons_self _ _
      exact List.mem_range.mp (List.mem_filter.mp hmem).1
    have hrow0 : (g.getD i0 []).length = numCols g := by
      have hmem : g.getD i0 [] ∈ g := by
        rw [List.getD_eq_getElem?_getD, List.getElem?_eq_getElem hi0,
          Option.getD_some]
        exact List.getElem_mem hi0
      exact eq_of_beq (List.all_eq_true.mp hrect _ hmem)
    have hnc : numCols (dropEmptyRows g) = numCols g := by
      rw [hDrop]
      show (g.getD i0 []).length = numCols g
      exact hrow0
    have hkeep : (List.range (numCols (dropEmptyRows g))).filter
        (fun j => !colAllEmpty (dropEmptyRows g) j) = keptColIdx g := by
      rw [hnc, keptColIdx]
      congr 1
      funext j
      rw [colAllEmpty, hrows, all_over_map, not_all_eq_any_not]
      rfl
    simp only [processDataframe, dropEmptyCols]
    rw [hkeep, hrows, List.map_map, List.map_map, specProcess]
    refine congrArg₂ List.map ?_ rfl
    funext i
    simp only [Function.comp, List.map_map]
    refine List.map_congr_left ?_
    intro a _
    rfl

/-- Witness for C9: a concrete rectangular grid with one all-absent row
and one all-absent column, on which the pipeline and its declarative
description agree. -/
theorem c9_loader_pipeline_witness :
    rectB [[Cell.empty, Cell.text "CHF 5"], [Cell.empty, Cell.empty]] = true
    ∧ processDataframe [[Cell.empty, Cell.text "CHF 5"], [Cell.empty, Cell.empty]]
        = specProcess [[Cell.empty, Cell.text "CHF 5"], [Cell.empty, Cell.empty]] :=
  ⟨rfl, (c9_loader_pipeline [[Cell.empty, Cell.text "CHF 5"],
    [Cell.empty, Cell.empty]] rfl).1⟩

/-- Claim C10, counterexample: the anchor row's amount cell coerces to
float (10.0), yet the run produces no output mapping at all — the Rule
B row below has an absent label cell, so the extraction raises
AttributeError and the exception reaches the caller in place of any
mapping. -/
theorem c10_no_output_on_raise :
    parseBilanz [[Cell.text "Aktiva", Cell.text "", Cell.text "", Cell.text "10"],
                 [Cell.text "1000", Cell.empty, Cell.text "", Cell.text "5"]]
      = Except.error PyErr.attributeError
    ∧ pyFloatCell (Cell.text "10") = some (PyFloat.num (natNum 10)) := by
  constructor
  · rfl
  · rfl

end ReportingRAG
